import Mathlib

/-!
Verification of the configuration-store, credential-vault, path-resolution
and git-synchronization logic of the integrated_app repository.

The Python sources are shallowly embedded as executable Lean definitions:

* JSON configuration documents are association lists of string keys and
  JSON values (Python dicts preserve insertion order; assignment of an
  existing key keeps its position and assignment of a fresh key appends).
* Python dict operations used by the source (membership test, pop with a
  default, item assignment) are the functions jhas / jpop / jset below.
* Operations that can raise a Python exception are modelled with Option /
  Except; a caught-and-degraded exception is modelled by the value the
  handler returns.
* External effects (git subprocesses, the filesystem, Fernet encryption)
  are modelled by oracle records supplied as explicit arguments, so every
  definition stays computable and every run of an operation is a pure
  function of its oracle.
-/

namespace IntegratedApp

mutual

/-- JSON values as stored in the configuration document
(config_handler.py works on dicts produced by json.load). -/
inductive JVal where
  | str (s : String)
  | num (n : Int)
  | bool (b : Bool)
  | null
  | obj (fields : JObj)
  | arr (elems : List JVal)

/-- A JSON object: an ordered association list, as a Python dict (dicts
preserve insertion order). -/
inductive JObj where
  | nil
  | cons (key : String) (val : JVal) (rest : JObj)

end

/-- Build a JSON object from a list of bindings (literal syntax). -/
def JObj.ofList : List (String × JVal) → JObj
  | [] => .nil
  | (k, v) :: rest => .cons k v (JObj.ofList rest)

/-- Concatenation of two objects. -/
def JObj.append : JObj → JObj → JObj
  | .nil, l2 => l2
  | .cons k v rest, l2 => .cons k v (rest.append l2)

/-- Python dict lookup (first binding of the key). -/
def jlookup (k : String) : JObj → Option JVal
  | .nil => none
  | .cons k2 v rest => if k2 = k then some v else jlookup k rest

/-- Python membership test: key in dict. -/
def jhas (k : String) : JObj → Bool
  | .nil => false
  | .cons k2 _ rest => if k2 = k then true else jhas k rest

/-- Python dict.pop(key, None): remove the binding of the key. -/
def jpop (k : String) : JObj → JObj
  | .nil => .nil
  | .cons k2 v rest => if k2 = k then jpop k rest else .cons k2 v (jpop k rest)

/-- Update every binding of the key in place, keeping its position. -/
def jupd (k : String) (v : JVal) : JObj → JObj
  | .nil => .nil
  | .cons k2 v2 rest =>
      if k2 = k then .cons k v (jupd k v rest)
      else .cons k2 v2 (jupd k v rest)

/-- Python dict item assignment: update the key in place if present,
append the binding otherwise. -/
def jset (k : String) (v : JVal) (l : JObj) : JObj :=
  if jhas k l then jupd k v l else l.append (.cons k v .nil)

/-- DEFAULT_CONFIG of config_handler.py. -/
def DEFAULT_CONFIG : JObj := .ofList
  [("app", .obj (.ofList [("prediction_url", .str "/api"),
                          ("account_code", .str "")])),
   ("logging", .obj (.ofList
      [("file_location", .str "./app_data/logs/predictions.log"),
       ("max_entries", .num 50000)])),
   ("security", .obj (.ofList [("admin_username", .str ""),
                               ("admin_password_hash", .str "")])),
   ("github", .obj (.ofList [("token", .str ""), ("repo_url", .str ""),
                             ("branch", .str "main")])),
   ("edited_configs", .obj (.ofList
      [("backend", .bool false), ("app", .bool false),
       ("security", .bool false), ("github", .bool false),
       ("logging", .bool false), ("user_management", .bool false)]))]

/-- sanitize_config_for_storage of config_handler.py: on a document with a
"github" section it pops the "githubToken" and "token" keys of that section
and re-inserts an empty "token"; documents without a "github" key are
returned unchanged.  When the "github" value is not a dict the .pop call
raises (AttributeError / TypeError), modelled as none. -/
def sanitize_config_for_storage (config : JObj) : Option JObj :=
  match jlookup "github" config with
  | none => some config
  | some (.obj g) =>
      let g1 := jpop "token" (jpop "githubToken" g)
      let g2 := if jhas "token" g1 then g1
                else g1.append (.cons "token" (.str "") .nil)
      some (jset "github" (.obj g2) config)
  | some _ => none

/-- save_config of config_handler.py, as a file-state transformer: the
sanitized document is written to the file and returned.  A sanitization
exception propagates (none); the write itself is modelled as succeeding,
since the claims quantify over successful saves. -/
def save_config (config : JObj) : Option JObj :=
  sanitize_config_for_storage config

/-- load_config of config_handler.py on a file state: the parsed document
when the file exists, DEFAULT_CONFIG when it is absent (or unreadable). -/
def load_config (file : Option JObj) : JObj :=
  file.getD DEFAULT_CONFIG

mutual

/-- The deep_update helper inside update_config of config_handler.py:
for each key of the update dict in order, assign the merged value. -/
def deep_update (source : JObj) : JObj → JObj
  | .nil => source
  | .cons k v rest =>
      deep_update (jset k (deep_merge_val (jlookup k source) v) source) rest

/-- The per-key merge of deep_update: when both the update value and the
current value are dicts the merge recurses, otherwise the update value
replaces the current one. -/
def deep_merge_val : Option JVal → JVal → JVal
  | some (.obj s), .obj u => JVal.obj (deep_update s u)
  | _, v => v

end

/-- update_config of config_handler.py: load the current document, deep
merge the partial update into it, then save (which sanitizes). -/
def update_config (upd : JObj) (file : Option JObj) : Option JObj :=
  save_config (deep_update (load_config file) upd)

/-- One ConfigStore mutation: a full save or a partial update. -/
inductive ConfigOp where
  | save (doc : JObj)
  | update (upd : JObj)

/-- Apply one operation to the persisted file state; an operation that
raises leaves the file unchanged (sanitize runs before the file is
opened for writing). -/
def applyOp (file : Option JObj) : ConfigOp → Option JObj
  | .save d =>
      match save_config d with
      | some s => some s
      | none => file
  | .update u =>
      match update_config u file with
      | some s => some s
      | none => file

/-- Run a sequence of ConfigStore operations against a file state. -/
def runOps (file : Option JObj) (ops : List ConfigOp) : Option JObj :=
  ops.foldl applyOp file

/-!
Character-level string helpers.  The embeddings below use these instead
of the Substring-based core functions so that every definition reduces
inside the kernel; each is extensionally the operation the Python source
performs on its strings.
-/

/-- Python s.startswith(pre). -/
def strStartsWith (s pre : String) : Bool :=
  pre.data.isPrefixOf s.data

/-- Python s.endswith(suf). -/
def strEndsWith (s suf : String) : Bool :=
  suf.data.reverse.isPrefixOf s.data.reverse

/-- Python s[n:] (drop the first n characters). -/
def strDropChars (s : String) (n : Nat) : String :=
  String.mk (s.data.drop n)

/-- An ASCII whitespace character, as stripped by Python str.strip(). -/
def isSpaceChar (ch : Char) : Bool :=
  ch = ' ' || ch = '\t' || ch = '\n' || ch = '\r'

/-- Python s.strip(). -/
def strTrim (s : String) : String :=
  String.mk (((s.data.dropWhile isSpaceChar).reverse.dropWhile
    isSpaceChar).reverse)

/-!
Credential vault (user_encryption.py).

Fernet encryption and decryption are modelled by a Crypto oracle: enc is
the (total, never-raising in encrypt_string because exceptions are caught)
encryption, dec returns none when fernet.decrypt raises.  The vault state
is the decrypted users document restricted to the parts the token
functions touch: the "github_token" section and its "token" entry; a
state with no stored value models both an absent section and an absent
"token" key, matching the chained .get(..., {}) / .get("token", "")
reads of get_github_token.
-/

/-- Oracle for the symmetric string encryption of user_encryption.py. -/
structure Crypto where
  enc : String → String
  dec : String → Option String

/-- encrypt_string of user_encryption.py: empty input is returned as is;
otherwise the Fernet ciphertext (an encryption exception would return the
original text, folded into the total oracle enc). -/
def encrypt_string (c : Crypto) (text : String) : String :=
  if text = "" then "" else c.enc text

/-- decrypt_string of user_encryption.py: empty input is returned as is;
a decryption exception is caught and the ORIGINAL encrypted text is
returned, not an empty string. -/
def decrypt_string (c : Crypto) (encrypted_text : String) : String :=
  if encrypted_text = "" then ""
  else
    match c.dec encrypted_text with
    | some plain => plain
    | none => encrypted_text

/-- The vault state: the stored encrypted GitHub token, if any
(data["github_token"]["token"] in the users document). -/
structure VaultState where
  github_token : Option String

/-- save_github_token of user_encryption.py: encrypts the token and
stores it (with an updated_at stamp, irrelevant here); returns True. -/
def save_github_token (c : Crypto) (token : String) (s : VaultState) :
    VaultState × Bool :=
  let _ := s
  ({ github_token := some (encrypt_string c token) }, true)

/-- get_github_token of user_encryption.py: reads the stored encrypted
token (empty when the section or key is absent), returns "" when it is
empty, otherwise decrypt_string of it; never raises. -/
def get_github_token (c : Crypto) (s : VaultState) : String :=
  let encrypted_token := s.github_token.getD ""
  if encrypted_token = "" then "" else decrypt_string c encrypted_token

/-- delete_github_token of user_encryption.py: removes the github_token
section; returns True. -/
def delete_github_token (s : VaultState) : VaultState × Bool :=
  let _ := s
  ({ github_token := none }, true)

/-- github_token_exists of user_encryption.py:
bool(token and token.strip()) for token = get_github_token(). -/
def github_token_exists (c : Crypto) (s : VaultState) : Bool :=
  let token := get_github_token c s
  !(token == "") && !(strTrim token == "")

/-!
Path resolution (main_advanced.py).

create_isolated_git_repo (lines 1505 to 1519) and
sync_files_back_to_source (lines 1597 to 1613) each resolve an allow-list
entry against the configured base path.  The os.path helpers they use are
embedded below for POSIX separators (os.path.basename, os.path.dirname,
str.rstrip with the two separator characters, os.path.join of one
relative component).
-/

/-- Python base_path.rstrip with the slash and backslash characters. -/
def rstripSlashes (s : String) : String :=
  String.mk ((s.data.reverse.dropWhile (fun ch => ch = '/' || ch = '\\')).reverse)

/-- os.path.basename for POSIX paths: the part after the last slash. -/
def posixBasename (p : String) : String :=
  String.mk ((p.data.reverse.takeWhile (fun ch => ch ≠ '/')).reverse)

/-- os.path.dirname for POSIX paths: the part up to the last slash, with
trailing slashes stripped unless the result is all slashes. -/
def posixDirname (p : String) : String :=
  let head := (p.data.reverse.dropWhile (fun ch => ch ≠ '/')).reverse
  if head ≠ [] && !(head.all (fun ch => ch = '/')) then
    String.mk ((head.reverse.dropWhile (fun ch => ch = '/')).reverse)
  else
    String.mk head

/-- os.path.join of a directory and one relative component. -/
def posixJoin (a b : String) : String :=
  if strStartsWith b "/" then b
  else if a = "" || strEndsWith a "/" then a ++ b
  else a ++ "/" ++ b

/-- Allow-list entry normalization shared by both copy directions:
a leading "./" is stripped. -/
def cleanFilePath (file_path : String) : String :=
  if strStartsWith file_path "./" then strDropChars file_path 2
  else file_path

/-- The source-path resolution of create_isolated_git_repo
(main_advanced.py lines 1505 to 1519): the project root is the current
working directory when base_path is "." or the cwd; otherwise the parent
of base_path when base_path ends in the app_data component; otherwise
base_path itself.  The allow-list entry is joined to that root. -/
def create_isolated_resolve (base_path cwd file_path : String) : String :=
  let clean := cleanFilePath file_path
  let project_root :=
    if base_path = "." || base_path = cwd then cwd
    else if posixBasename (rstripSlashes base_path) = "app_data" then
      posixDirname (rstripSlashes base_path)
    else base_path
  posixJoin project_root clean

/-- The destination-path resolution of sync_files_back_to_source
(main_advanced.py lines 1597 to 1613), transcribed from that code. -/
def sync_back_resolve (base_path cwd file_path : String) : String :=
  let clean := cleanFilePath file_path
  let project_root :=
    if base_path = "." || base_path = cwd then cwd
    else if posixBasename (rstripSlashes base_path) = "app_data" then
      posixDirname (rstripSlashes base_path)
    else base_path
  posixJoin project_root clean

/-!
Git synchronization engine (main_advanced.py, git_pull and git_push).

run_git_command returns a success dict holding the stdout of the
subprocess, or a failure dict holding its stderr; the environment is an
Oracle mapping each argv list to that outcome.  Each endpoint first tries
the configuration loaded from config.json (the github_config branch) and
falls back to the parameters of the HTTP request body; both branches are
modelled, dispatching on which inputs are present exactly as the source
does.  Python exceptions travel through Except String: FastAPI turns an
uncaught one into an HTTPException with status 500 whose detail prefixes
the exception text, as the outermost except blocks of both endpoints do.

The staging (temporary) directory lifecycle is tracked explicitly: the
body reports whether the directory still exists when control leaves the
try block and whether the temp_dir variable was assigned, and finalize
applies the finally block, which removes the directory when the variable
is set and the directory exists (shutil.rmtree with ignore_errors, here
modelled as removing it).
-/

/-- An argv list passed to run_git_command. -/
abbrev Cmd := List String

/-- Outcome of run_git_command: the success dict carries stdout under
"output", the failure dict carries stderr under "error". -/
inductive GitResult where
  | ok (output : String)
  | err (error : String)
deriving DecidableEq

/-- result["success"] of a run_git_command outcome. -/
def GitResult.success : GitResult → Bool
  | .ok _ => true
  | .err _ => false

/-- result["output"] on a success dict (the failure dict has no such
key; callers reading it on failure are modelled separately). -/
def GitResult.getOutput : GitResult → String
  | .ok o => o
  | .err _ => ""

/-- result.get("output", result.get("error", default)): the stdout of a
success dict, the stderr of a failure dict. -/
def GitResult.outputOrError : GitResult → String
  | .ok o => o
  | .err e => e

/-- Environment of one pull or push call: the outcome of every git
command, whether building the staging copy raises (a filesystem error
while copying), whether copying files back to the real tree raises, and
how many allow-listed files exist locally (the length of the copied-files
list, used only in the success message). -/
structure Oracle where
  git : Cmd → GitResult
  buildExc : Option String
  syncBackExc : Option String
  copiedCount : Nat

/-- Parameters of one sync call, whether they come from get_github_config
(repositoryUrl, branchName, githubUsername, githubToken) or from the
GitRequest body (repository_url, branch_name, github_username,
github_token). -/
structure GitParams where
  url : String
  branch : String
  username : String
  token : String

/-- The credential-embedded remote URL of create_isolated_git_repo:
repo_url.replace("https://", "https://" + user + ":" + token + "@"). -/
def authUrl (p : GitParams) : String :=
  p.url.replace "https://" ("https://" ++ p.username ++ ":" ++ p.token ++ "@")

/-- The git commands run by create_isolated_git_repo after copying the
allow-listed files (their results are printed and ignored). -/
def stagingCmds (p : GitParams) : List Cmd :=
  [["git", "init"],
   ["git", "config", "user.name", p.username],
   ["git", "config", "user.email", p.username ++ "@users.noreply.github.com"],
   ["git", "remote", "add", "origin", authUrl p]]

/-- The fixed commit command of both push paths. -/
def commitCmd : Cmd := ["git", "commit", "-m", "Automated commit from web app"]

/-- Push strategy (a): plain git push origin branch. -/
def pushPlainCmd (branch : String) : Cmd := ["git", "push", "origin", branch]

/-- Push strategy (b): git push --set-upstream origin branch. -/
def pushUpstreamCmd (branch : String) : Cmd :=
  ["git", "push", "--set-upstream", "origin", branch]

/-- Push strategy (c): git push --force origin branch. -/
def pushForceCmd (branch : String) : Cmd :=
  ["git", "push", "--force", "origin", branch]

/-- Push strategy (d): git push --force origin current:branch. -/
def pushForceRefspecCmd (current branch : String) : Cmd :=
  ["git", "push", "--force", "origin", current ++ ":" ++ branch]

/-- git branch --show-current, read before strategy (d). -/
def showCurrentCmd : Cmd := ["git", "branch", "--show-current"]

/-- git ls-remote --heads origin branch, the remote branch probe of the
configuration pull path. -/
def lsRemoteCmd (branch : String) : Cmd :=
  ["git", "ls-remote", "--heads", "origin", branch]

/-- What one endpoint call returns to the HTTP client: a JSON body with
a success flag and a message, or an HTTPException with a status code and
a detail string. -/
inductive HttpOutcome where
  | ok (success : Bool) (message : String)
  | httpError (status : Nat) (detail : String)
deriving DecidableEq

/-- State of one try body when control leaves it: the git commands run in
order, the returned dict or the raised exception text, whether the
staging directory still exists, and whether the temp_dir variable was
assigned. -/
structure TryResult where
  trace : List Cmd
  result : Except String (Bool × String)
  dirAtExit : Bool
  assigned : Bool

/-- Everything observable about one endpoint call: the git commands run,
the HTTP outcome, and whether a staging directory created by the call
still exists after it returns. -/
structure CallOutcome where
  trace : List Cmd
  response : HttpOutcome
  stagingDirExists : Bool

/-- The finally block plus the outermost exception handler of the pull
and push endpoints: the staging directory is removed when the variable is
assigned and the directory exists, and an uncaught exception becomes an
HTTPException 500 whose detail is the endpoint tag followed by the
exception text. -/
def finalize (tag : String) (b : TryResult) : CallOutcome :=
  let dirAfter := if b.assigned && b.dirAtExit then false else b.dirAtExit
  match b.result with
  | .ok (success, message) =>
      { trace := b.trace, response := .ok success message,
        stagingDirExists := dirAfter }
  | .error e =>
      { trace := b.trace, response := .httpError 500 (tag ++ e),
        stagingDirExists := dirAfter }

/-- The staging build step shared by all four bodies: when copying
raises, create_isolated_git_repo removes the directory it created and
re-raises before temp_dir is assigned; otherwise the four staging git
commands run (results ignored) and temp_dir is assigned. -/
def buildFailure (e : String) : TryResult :=
  { trace := [], result := .error e, dirAtExit := false, assigned := false }

/-- The try body of the configuration branch of git_push
(main_advanced.py lines 1896 to 2000). -/
def pushConfigBody (o : Oracle) (p : GitParams) : TryResult :=
  match o.buildExc with
  | some e => buildFailure e
  | none =>
    let t0 := stagingCmds p
    let _add := o.git ["git", "add", "."]
    let _commit := o.git commitCmd
    let fetch := o.git ["git", "fetch", "origin"]
    let _checkout := o.git ["git", "checkout", "-B", p.branch]
    let t1 := t0 ++ [["git", "add", "."], commitCmd, ["git", "fetch", "origin"],
                     ["git", "checkout", "-B", p.branch]]
    let t2 := if fetch.success then t1 ++ [["git", "pull", "origin", p.branch]]
              else t1
    let successMsg := "Successfully pushed " ++ toString o.copiedCount ++
      " files to " ++ p.url ++ ":" ++ p.branch
    let rA := o.git (pushPlainCmd p.branch)
    if rA.success then
      { trace := t2 ++ [pushPlainCmd p.branch],
        result := .ok (true, successMsg), dirAtExit := true, assigned := true }
    else
      let rB := o.git (pushUpstreamCmd p.branch)
      if rB.success then
        { trace := t2 ++ [pushPlainCmd p.branch, pushUpstreamCmd p.branch],
          result := .ok (true, successMsg), dirAtExit := true, assigned := true }
      else
        let rC := o.git (pushForceCmd p.branch)
        if rC.success then
          { trace := t2 ++ [pushPlainCmd p.branch, pushUpstreamCmd p.branch,
                            pushForceCmd p.branch],
            result := .ok (true, successMsg), dirAtExit := true,
            assigned := true }
        else
          let rBr := o.git showCurrentCmd
          if rBr.success then
            let current := strTrim rBr.getOutput
            let rD := o.git (pushForceRefspecCmd current p.branch)
            let t3 := t2 ++ [pushPlainCmd p.branch, pushUpstreamCmd p.branch,
                             pushForceCmd p.branch, showCurrentCmd,
                             pushForceRefspecCmd current p.branch]
            if rD.success then
              { trace := t3, result := .ok (true, successMsg),
                dirAtExit := true, assigned := true }
            else
              { trace := t3,
                result := .error ("All push attempts failed. Last error: " ++
                  rD.outputOrError),
                dirAtExit := true, assigned := true }
          else
            { trace := t2 ++ [pushPlainCmd p.branch, pushUpstreamCmd p.branch,
                              pushForceCmd p.branch, showCurrentCmd],
              result := .error ("Git push failed: " ++ rC.outputOrError),
              dirAtExit := true, assigned := true }

/-- The try body of the request-parameter branch of git_push
(main_advanced.py lines 2009 to 2053).  When the commit fails, line 2022
reads commit_result["output"] on the failure dict, which has no such key,
so a KeyError whose text is the quoted key name is raised.  The push
cascade of this branch has only three strategies and the result of the
final force push is discarded. -/
def pushRequestBody (o : Oracle) (p : GitParams) : TryResult :=
  match o.buildExc with
  | some e => buildFailure e
  | none =>
    let t0 := stagingCmds p
    let _add := o.git ["git", "add", "."]
    let commit := o.git commitCmd
    let t1 := t0 ++ [["git", "add", "."], commitCmd]
    if !commit.success then
      { trace := t1, result := .error "'output'", dirAtExit := true,
        assigned := true }
    else
      let fetch := o.git ["git", "fetch", "origin"]
      let t2 := t1 ++ [["git", "fetch", "origin"]]
      let t3 := if fetch.success then t2 ++ [["git", "pull", "origin", p.branch]]
                else t2
      let successMsg := "Successfully pushed " ++ toString o.copiedCount ++
        " files to " ++ p.url ++ ":" ++ p.branch
      let rA := o.git (pushPlainCmd p.branch)
      if rA.success then
        { trace := t3 ++ [pushPlainCmd p.branch],
          result := .ok (true, successMsg), dirAtExit := true,
          assigned := true }
      else
        let rB := o.git (pushUpstreamCmd p.branch)
        if rB.success then
          { trace := t3 ++ [pushPlainCmd p.branch, pushUpstreamCmd p.branch],
            result := .ok (true, successMsg), dirAtExit := true,
            assigned := true }
        else
          let _rC := o.git (pushForceCmd p.branch)
          { trace := t3 ++ [pushPlainCmd p.branch, pushUpstreamCmd p.branch,
                            pushForceCmd p.branch],
            result := .ok (true, successMsg), dirAtExit := true,
            assigned := true }

/-- The try body of the configuration branch of git_pull
(main_advanced.py lines 1709 to 1796). -/
def pullConfigBody (o : Oracle) (p : GitParams) : TryResult :=
  match o.buildExc with
  | some e => buildFailure e
  | none =>
    let t0 := stagingCmds p
    let _fetch := o.git ["git", "fetch", "origin", p.branch]
    let probe := o.git (lsRemoteCmd p.branch)
    let t1 := t0 ++ [["git", "fetch", "origin", p.branch], lsRemoteCmd p.branch]
    if probe.success && !(strTrim probe.getOutput == "") then
      let co := o.git ["git", "checkout", "-b", p.branch,
                       "origin/" ++ p.branch]
      let t2 := t1 ++ [["git", "checkout", "-b", p.branch,
                        "origin/" ++ p.branch]]
      if co.success then
        match o.syncBackExc with
        | some e =>
            { trace := t2, result := .error e, dirAtExit := true,
              assigned := true }
        | none =>
            { trace := t2,
              result := .ok (true, "Successfully pulled " ++
                toString o.copiedCount ++ " files from " ++ p.url ++ ":" ++
                p.branch),
              dirAtExit := true, assigned := true }
      else
        { trace := t2,
          result := .ok (false, "Failed to checkout remote branch: " ++
            co.outputOrError),
          dirAtExit := true, assigned := true }
    else
      { trace := t1,
        result := .ok (false, "Remote branch '" ++ p.branch ++
          "' does not exist. Use git push first to create it."),
        dirAtExit := true, assigned := true }

/-- The try body of the request-parameter branch of git_pull
(main_advanced.py lines 1805 to 1835): no remote branch probe; when the
checkout of origin/branch fails, a fresh local branch is created with
git checkout -b and the call still reports success. -/
def pullRequestBody (o : Oracle) (p : GitParams) : TryResult :=
  match o.buildExc with
  | some e => buildFailure e
  | none =>
    let t0 := stagingCmds p
    let _fetch := o.git ["git", "fetch", "origin", p.branch]
    let coB := o.git ["git", "checkout", "-B", p.branch,
                      "origin/" ++ p.branch]
    let t1 := t0 ++ [["git", "fetch", "origin", p.branch],
                     ["git", "checkout", "-B", p.branch,
                      "origin/" ++ p.branch]]
    let t2 := if coB.success then t1
              else
                let _coNew := o.git ["git", "checkout", "-b", p.branch]
                t1 ++ [["git", "checkout", "-b", p.branch]]
    match o.syncBackExc with
    | some e =>
        { trace := t2, result := .error e, dirAtExit := true,
          assigned := true }
    | none =>
        { trace := t2,
          result := .ok (true, "Successfully pulled " ++
            toString o.copiedCount ++ " files from " ++ p.url ++ ":" ++
            p.branch),
          dirAtExit := true, assigned := true }

/-- The HTTPException 400 raised by both endpoints when neither a GitHub
configuration nor request parameters are available. -/
def noConfigOutcome : CallOutcome :=
  { trace := [],
    response := .httpError 400 ("No GitHub configuration found in " ++
      "config.json and no parameters provided. Please configure GitHub " ++
      "settings first."),
    stagingDirExists := false }

/-- The git_push endpoint of main_advanced.py: the configuration branch
when get_github_config returned one, else the request branch when a
request body was supplied, else HTTPException 400. -/
def git_push (o : Oracle) (cfg : Option GitParams) (req : Option GitParams) :
    CallOutcome :=
  match cfg with
  | some p => finalize "Git push error: " (pushConfigBody o p)
  | none =>
    match req with
    | some p => finalize "Git push error: " (pushRequestBody o p)
    | none => noConfigOutcome

/-- The git_pull endpoint of main_advanced.py, dispatching like
git_push. -/
def git_pull (o : Oracle) (cfg : Option GitParams) (req : Option GitParams) :
    CallOutcome :=
  match cfg with
  | some p => finalize "Git pull error: " (pullConfigBody o p)
  | none =>
    match req with
    | some p => finalize "Git pull error: " (pullRequestBody o p)
    | none => noConfigOutcome

/-- A command is a push invocation when its first two words are git and
push. -/
def isPushCmd : Cmd → Bool
  | "git" :: "push" :: _ => true
  | _ => false

/-- The push invocations of a trace, in order. -/
def pushTrace (t : List Cmd) : List Cmd :=
  t.filter isPushCmd

/-!
Association-list lemmas for the Python dict model.
-/

theorem jhas_eq_isSome (k : String) :
    ∀ l : JObj, jhas k l = (jlookup k l).isSome
  | .nil => rfl
  | .cons k2 v rest => by
      by_cases h : k2 = k <;>
        simp [jhas, jlookup, h, jhas_eq_isSome k rest]

theorem jlookup_jpop_self (k : String) :
    ∀ l : JObj, jlookup k (jpop k l) = none
  | .nil => rfl
  | .cons k2 v rest => by
      by_cases h : k2 = k <;>
        simp [jpop, jlookup, h, jlookup_jpop_self k rest]

theorem jlookup_jpop_ne (k k2 : String) (h : k ≠ k2) :
    ∀ l : JObj, jlookup k (jpop k2 l) = jlookup k l
  | .nil => rfl
  | .cons k3 v rest => by
      by_cases h3 : k3 = k2
      · simp [jpop, jlookup, h3, Ne.symm h, jlookup_jpop_ne k k2 h rest]
      · by_cases h4 : k3 = k <;>
          simp [jpop, jlookup, h3, h4, h, jlookup_jpop_ne k k2 h rest]

theorem jlookup_append (k : String) :
    ∀ l1 l2 : JObj, jlookup k (l1.append l2) =
      match jlookup k l1 with
      | some v => some v
      | none => jlookup k l2
  | .nil, l2 => rfl
  | .cons k2 v rest, l2 => by
      by_cases h2 : k2 = k <;>
        simp [JObj.append, jlookup, h2, jlookup_append k rest l2]

theorem jlookup_jupd_of_has (k : String) (v : JVal) :
    ∀ l : JObj, jhas k l = true → jlookup k (jupd k v l) = some v
  | .nil, h => by simp [jhas] at h
  | .cons k2 v2 rest, h => by
      by_cases h2 : k2 = k
      · simp [jupd, jlookup, h2]
      · simp only [jhas, if_neg h2] at h
        simp [jupd, jlookup, h2, jlookup_jupd_of_has k v rest h]

theorem jlookup_jupd_ne (k k2 : String) (v : JVal) (h : k ≠ k2) :
    ∀ l : JObj, jlookup k (jupd k2 v l) = jlookup k l
  | .nil => rfl
  | .cons k3 v3 rest => by
      by_cases h3 : k3 = k2
      · simp [jupd, jlookup, h3, Ne.symm h, jlookup_jupd_ne k k2 v h rest]
      · by_cases h4 : k3 = k <;>
          simp [jupd, jlookup, h3, h4, h, jlookup_jupd_ne k k2 v h rest]

theorem jlookup_none_of_not_jhas (k : String) (l : JObj)
    (h : jhas k l = false) : jlookup k l = none := by
  have h2 := jhas_eq_isSome k l
  rw [h] at h2
  cases hl : jlookup k l with
  | none => rfl
  | some w => rw [hl] at h2; simp at h2

theorem jlookup_jset_self (k : String) (v : JVal) (l : JObj) :
    jlookup k (jset k v l) = some v := by
  unfold jset
  by_cases h : jhas k l = true
  · simp [h, jlookup_jupd_of_has k v l h]
  · simp only [Bool.not_eq_true] at h
    simp only [h, Bool.false_eq_true, if_false]
    rw [jlookup_append, jlookup_none_of_not_jhas k l h]
    simp [jlookup]

theorem jlookup_jset_ne (k k2 : String) (v : JVal) (l : JObj) (h : k ≠ k2) :
    jlookup k (jset k2 v l) = jlookup k l := by
  unfold jset
  by_cases h2 : jhas k2 l = true
  · simp [h2, jlookup_jupd_ne k k2 v h l]
  · simp only [Bool.not_eq_true] at h2
    simp only [h2, Bool.false_eq_true, if_false]
    rw [jlookup_append]
    cases hl : jlookup k l with
    | none => simp [jlookup, Ne.symm h]
    | some w => simp

/-!
The storage-sanitization invariant.
-/

/-- The github section of a persisted document is sanitized: when the
"github" key is present it holds an object with no "githubToken" key and
an empty-string "token" key. -/
def githubClean (doc : JObj) : Prop :=
  match jlookup "github" doc with
  | none => True
  | some (.obj g) =>
      jlookup "githubToken" g = none ∧ jlookup "token" g = some (.str "")
  | some _ => False

/-- The persisted-file invariant: an absent file is clean, a present file
is clean when its github section is. -/
def fileClean : Option JObj → Prop
  | none => True
  | some d => githubClean d

/-- Exact description of a successful sanitize_config_for_storage run:
either the document has no github key and is returned unchanged, or the
github section is an object and is replaced by one with no githubToken
key and an empty token key. -/
theorem sanitize_spec (c s : JObj)
    (h : sanitize_config_for_storage c = some s) :
    (jlookup "github" c = none ∧ s = c) ∨
    (∃ g g2, jlookup "github" c = some (.obj g) ∧
      s = jset "github" (.obj g2) c ∧
      jlookup "githubToken" g2 = none ∧
      jlookup "token" g2 = some (.str "")) := by
  unfold sanitize_config_for_storage at h
  cases hg : jlookup "github" c with
  | none =>
    rw [hg] at h
    exact Or.inl ⟨rfl, (Option.some.inj h).symm⟩
  | some v =>
    rw [hg] at h
    cases v with
    | obj g =>
      simp only at h
      refine Or.inr ⟨g, ?_, rfl, ?_, ?_, ?_⟩
      case refine_2 => exact (Option.some.inj h).symm
      all_goals
        have hg1 : jlookup "token" (jpop "token" (jpop "githubToken" g)) =
            none := jlookup_jpop_self _ _
        have hhas : jhas "token" (jpop "token" (jpop "githubToken" g)) =
            false := by
          rw [jhas_eq_isSome, hg1]; rfl
      · rw [hhas]
        simp only [Bool.false_eq_true, if_false]
        rw [jlookup_append]
        have : jlookup "githubToken" (jpop "token" (jpop "githubToken" g)) =
            none := by
          rw [jlookup_jpop_ne _ _ (by decide), jlookup_jpop_self]
        rw [this]
        simp [jlookup]
      · rw [hhas]
        simp only [Bool.false_eq_true, if_false]
        rw [jlookup_append, hg1]
        simp [jlookup]
    | str v => exact absurd h (by simp)
    | num v => exact absurd h (by simp)
    | bool v => exact absurd h (by simp)
    | null => exact absurd h (by simp)
    | arr v => exact absurd h (by simp)

/-- A successful save persists a clean document. -/
theorem githubClean_save (c s : JObj) (h : save_config c = some s) :
    githubClean s := by
  rcases sanitize_spec c s h with ⟨hg, rfl⟩ | ⟨g, g2, _, rfl, h2, h3⟩
  · unfold githubClean
    rw [hg]
    trivial
  · unfold githubClean
    rw [jlookup_jset_self]
    exact ⟨h2, h3⟩

/-- Every key of the update (and every key of the source) is still
present after deep_update. -/
theorem jlookup_deep_update_isSome :
    ∀ (upd src : JObj) (k : String),
      ((jlookup k upd).isSome ∨ (jlookup k src).isSome) →
      (jlookup k (deep_update src upd)).isSome
  | .nil, src, k, h => by
      cases h with
      | inl h => simp [jlookup] at h
      | inr h => simpa [deep_update] using h
  | .cons k2 v rest, src, k, h => by
      rw [deep_update]
      apply jlookup_deep_update_isSome rest
      by_cases hk : k2 = k
      · subst hk
        right
        rw [jlookup_jset_self]
        rfl
      · cases h with
        | inl h =>
          left
          simpa [jlookup, hk] using h
        | inr h =>
          right
          rwa [jlookup_jset_ne k k2 _ _ fun he => hk he.symm]

/-- Applying one ConfigStore operation preserves the sanitized-file
invariant: a successful save or update persists a clean document and a
failing one leaves the file untouched. -/
theorem fileClean_applyOp (file : Option JObj) (op : ConfigOp)
    (h : fileClean file) : fileClean (applyOp file op) := by
  cases op with
  | save d =>
    simp only [applyOp]
    cases hs : save_config d with
    | none => exact h
    | some s => exact githubClean_save d s hs
  | update u =>
    simp only [applyOp]
    cases hs : update_config u file with
    | none => exact h
    | some s =>
      unfold update_config at hs
      exact githubClean_save _ s hs

/-- C1 (amended): the save operation strips only the githubToken and
token keys of the github section, re-inserting token as the empty string;
secret-shaped keys outside the github section are persisted verbatim.
Consequently, across any sequence of ConfigStore save and update
operations starting from a clean (or absent) file, the persisted
document's github section never contains a githubToken key and its token
key is always the empty string. -/
theorem c1_theorem (ops : List ConfigOp) (file : Option JObj)
    (h : fileClean file) : fileClean (runOps file ops) := by
  induction ops generalizing file with
  | nil => exact h
  | cons op rest ih =>
    simp only [runOps, List.foldl] at *
    exact ih (applyOp file op) (fileClean_applyOp file op h)

/-- Witness for C1: a save of a document holding a github token followed
by a partial update re-introducing a githubToken field leaves the
persisted file clean at the github section. -/
theorem c1_witness :
    fileClean (runOps none
      [ConfigOp.save (.ofList
         [("github", JVal.obj (.ofList [("token", JVal.str "ghp_a")]))]),
       ConfigOp.update (.ofList
         [("github", JVal.obj (.ofList
            [("githubToken", JVal.str "ghp_b")]))])]) :=
  c1_theorem _ none trivial

/-- C1 counterexample: the claim says every secret-shaped field is
stripped before writing, but a githubToken field outside the github
section is persisted together with its plaintext value. -/
theorem c1_counterexample :
    runOps none [ConfigOp.save
        (.cons "githubToken" (JVal.str "ghp_secret") .nil)] =
      some (.cons "githubToken" (JVal.str "ghp_secret") .nil) ∧
    jlookup "githubToken"
        ((runOps none [ConfigOp.save
          (.cons "githubToken" (JVal.str "ghp_secret") .nil)]).getD .nil) =
      some (JVal.str "ghp_secret") :=
  ⟨rfl, rfl⟩

/-- C10: after every successful save, and after every successful partial
update whose input contains a github section, the persisted github
section holds a token key bound to the empty string (and no githubToken
key): sanitization removes any token value and re-inserts an empty token
field. -/
theorem c10_theorem :
    (∀ c g s, jlookup "github" c = some (JVal.obj g) →
      save_config c = some s →
      ∃ g2, jlookup "github" s = some (JVal.obj g2) ∧
        jlookup "token" g2 = some (JVal.str "") ∧
        jlookup "githubToken" g2 = none) ∧
    (∀ u file s, (jlookup "github" u).isSome →
      update_config u file = some s →
      ∃ g2, jlookup "github" s = some (JVal.obj g2) ∧
        jlookup "token" g2 = some (JVal.str "") ∧
        jlookup "githubToken" g2 = none) := by
  constructor
  · intro c g s hg hs
    rcases sanitize_spec c s hs with ⟨hnone, _⟩ | ⟨g0, g2, _, rfl, h2, h3⟩
    · rw [hg] at hnone
      exact absurd hnone (by simp)
    · exact ⟨g2, jlookup_jset_self _ _ _, h3, h2⟩
  · intro u file s hu hs
    unfold update_config save_config at hs
    have hpres : (jlookup "github" (deep_update (load_config file) u)).isSome :=
      jlookup_deep_update_isSome u _ _ (Or.inl hu)
    rcases sanitize_spec _ s hs with ⟨hnone, _⟩ | ⟨g0, g2, _, rfl, h2, h3⟩
    · rw [hnone] at hpres
      simp at hpres
    · exact ⟨g2, jlookup_jset_self _ _ _, h3, h2⟩

/-- Witness for C10: a concrete save and a concrete update, each with a
github section, persist an empty token field. -/
theorem c10_witness :
    (∃ g2, jlookup "github"
        ((save_config (.cons "github"
          (JVal.obj (.cons "token" (JVal.str "ghp_abc") .nil)) .nil)).getD
            .nil) =
          some (JVal.obj g2) ∧
      jlookup "token" g2 = some (JVal.str "") ∧
      jlookup "githubToken" g2 = none) ∧
    (∃ g2, jlookup "github"
        ((update_config
          (.cons "github"
            (JVal.obj (.cons "githubToken" (JVal.str "x") .nil)) .nil)
          (some (.cons "github"
            (JVal.obj (.cons "token" (JVal.str "old") .nil)) .nil))).getD
              .nil) =
          some (JVal.obj g2) ∧
      jlookup "token" g2 = some (JVal.str "") ∧
      jlookup "githubToken" g2 = none) :=
  ⟨c10_theorem.1 (.cons "github"
      (JVal.obj (.cons "token" (JVal.str "ghp_abc") .nil)) .nil)
      (.cons "token" (JVal.str "ghp_abc") .nil) _ rfl rfl,
   c10_theorem.2 (.cons "github"
      (JVal.obj (.cons "githubToken" (JVal.str "x") .nil)) .nil)
      (some (.cons "github"
        (JVal.obj (.cons "token" (JVal.str "old") .nil)) .nil)) _ rfl rfl⟩

/-!
Credential-vault theorems (claims C3 and C7).
-/

/-- Concrete encryption oracle for witnesses and counterexamples: a
ciphertext is the plaintext prefixed with one marker character; a string
without the marker fails to decrypt. -/
def markCrypto : Crypto where
  enc := fun s => "E" ++ s
  dec := fun s => if strStartsWith s "E" then some (strDropChars s 1)
    else none

/-- C3 (amended): get_github_token never raises and returns the empty
string when no token is stored (or the stored ciphertext is empty) and
the decrypted plaintext when decryption succeeds; but when decryption of
a stored non-empty ciphertext fails it returns that ciphertext itself,
not an empty result, so decryption failure is observationally distinct
from an absent token. -/
theorem c3_theorem (c : Crypto) :
    (∀ s : VaultState, s.github_token = none ∨ s.github_token = some "" →
      get_github_token c s = "") ∧
    (∀ (s : VaultState) (et p : String), s.github_token = some et →
      et ≠ "" → c.dec et = some p → get_github_token c s = p) ∧
    (∀ (s : VaultState) (et : String), s.github_token = some et →
      et ≠ "" → c.dec et = none → get_github_token c s = et) := by
  refine ⟨?_, ?_, ?_⟩
  · rintro s (h | h) <;> simp [get_github_token, h]
  · intro s et p hst hne hdec
    simp [get_github_token, hst, hne, decrypt_string, hdec]
  · intro s et hst hne hdec
    simp [get_github_token, hst, hne, decrypt_string, hdec]

/-- Witness for C3: an absent token reads back empty and a decryptable
ciphertext reads back as its plaintext. -/
theorem c3_witness :
    get_github_token markCrypto { github_token := none } = "" ∧
    get_github_token markCrypto { github_token := some "Exyz" } = "xyz" :=
  ⟨(c3_theorem markCrypto).1 { github_token := none } (Or.inl rfl),
   (c3_theorem markCrypto).2.1 { github_token := some "Exyz" } "Exyz" "xyz"
     rfl (by decide) (by decide)⟩

/-- C3 counterexample: with a stored token whose decryption fails, the
claim requires an empty result, but get_github_token returns the stored
ciphertext, which is not empty. -/
theorem c3_counterexample :
    markCrypto.dec "garbage" = none ∧
    get_github_token markCrypto { github_token := some "garbage" } =
      "garbage" ∧
    get_github_token markCrypto { github_token := some "garbage" } ≠ "" :=
  ⟨by decide, by decide, by decide⟩

/-- C7: for every non-empty token (under the Fernet round-trip contract:
decryption inverts encryption and ciphertexts are non-empty), saving then
reading returns exactly the token, and after a delete, tokenExists is
false. -/
theorem c7_theorem (c : Crypto) (t : String) (s s2 : VaultState)
    (ht : t ≠ "") (hrt : c.dec (c.enc t) = some t) (hne : c.enc t ≠ "") :
    get_github_token c (save_github_token c t s).1 = t ∧
    github_token_exists c (delete_github_token s2).1 = false := by
  constructor
  · simp [save_github_token, get_github_token, encrypt_string,
          decrypt_string, ht, hne, hrt]
  · rfl

/-- Witness for C7: a concrete round trip and a concrete delete. -/
theorem c7_witness :
    get_github_token markCrypto
        (save_github_token markCrypto "ghp_tok" { github_token := none }).1 =
      "ghp_tok" ∧
    github_token_exists markCrypto
        (delete_github_token { github_token := some "Eold" }).1 = false :=
  c7_theorem markCrypto "ghp_tok" { github_token := none }
    { github_token := some "Eold" } (by decide) (by decide) (by decide)

/-!
Path-resolution theorem (claim C9).
-/

/-- C9: the path-resolution rule of the staging copy
(create_isolated_git_repo) and the rule of the copy-back direction
(sync_files_back_to_source) are the same function; that shared rule
treats a base path of "." or the current working directory as the
project root itself, a base path whose final component is app_data as
one level below the true project root, and any other base path as the
project root. -/
theorem c9_theorem :
    (∀ base cwd f, create_isolated_resolve base cwd f =
      sync_back_resolve base cwd f) ∧
    (∀ cwd f, create_isolated_resolve "." cwd f =
      posixJoin cwd (cleanFilePath f)) ∧
    (∀ base cwd f, base ≠ "." → base ≠ cwd →
      posixBasename (rstripSlashes base) = "app_data" →
      create_isolated_resolve base cwd f =
        posixJoin (posixDirname (rstripSlashes base)) (cleanFilePath f)) ∧
    (∀ base cwd f, base ≠ "." → base ≠ cwd →
      posixBasename (rstripSlashes base) ≠ "app_data" →
      create_isolated_resolve base cwd f =
        posixJoin base (cleanFilePath f)) := by
  refine ⟨fun base cwd f => rfl, fun cwd f => by
      simp [create_isolated_resolve], ?_, ?_⟩
  · intro base cwd f h1 h2 h3
    simp [create_isolated_resolve, h1, h2, h3]
  · intro base cwd f h1 h2 h3
    simp [create_isolated_resolve, h1, h2, h3]

/-- Witness for C9: a base path ending in the app_data component resolves
one level up, identically in both copy directions. -/
theorem c9_witness :
    create_isolated_resolve "/srv/proj/app_data" "/cwd" "./a/b.json" =
      sync_back_resolve "/srv/proj/app_data" "/cwd" "./a/b.json" ∧
    create_isolated_resolve "/srv/proj/app_data" "/cwd" "./a/b.json" =
      "/srv/proj/a/b.json" := by
  constructor
  · exact c9_theorem.1 "/srv/proj/app_data" "/cwd" "./a/b.json"
  · rw [c9_theorem.2.2.1 "/srv/proj/app_data" "/cwd" "./a/b.json"
      (by decide) (by decide) (by decide)]
    decide

/-!
Git-engine helper lemmas.
-/

theorem finalize_trace (tag : String) (b : TryResult) :
    (finalize tag b).trace = b.trace := by
  unfold finalize
  cases hres : b.result with
  | ok v => obtain ⟨s, m⟩ := v; rfl
  | error e => rfl

theorem finalize_stagingDirExists (tag : String) (b : TryResult)
    (h : b.dirAtExit = false ∨ b.assigned = true) :
    (finalize tag b).stagingDirExists = false := by
  unfold finalize
  rcases h with h | h
  · cases hres : b.result with
    | ok v => obtain ⟨s, m⟩ := v; simp [h]
    | error e => simp [h]
  · cases hres : b.result with
    | ok v => obtain ⟨s, m⟩ := v; cases hd : b.dirAtExit <;> simp [h, hd]
    | error e => cases hd : b.dirAtExit <;> simp [h, hd]

theorem pushConfigBody_cleanup (o : Oracle) (p : GitParams) :
    (pushConfigBody o p).dirAtExit = false ∨
    (pushConfigBody o p).assigned = true := by
  unfold pushConfigBody buildFailure
  cases o.buildExc with
  | some e => exact Or.inl rfl
  | none =>
    right
    dsimp only
    repeat' split
    all_goals rfl

theorem pushRequestBody_cleanup (o : Oracle) (p : GitParams) :
    (pushRequestBody o p).dirAtExit = false ∨
    (pushRequestBody o p).assigned = true := by
  unfold pushRequestBody buildFailure
  cases o.buildExc with
  | some e => exact Or.inl rfl
  | none =>
    right
    dsimp only
    repeat' split
    all_goals rfl

theorem pullConfigBody_cleanup (o : Oracle) (p : GitParams) :
    (pullConfigBody o p).dirAtExit = false ∨
    (pullConfigBody o p).assigned = true := by
  unfold pullConfigBody buildFailure
  cases o.buildExc with
  | some e => exact Or.inl rfl
  | none =>
    right
    dsimp only
    repeat' split
    all_goals rfl

theorem pullRequestBody_cleanup (o : Oracle) (p : GitParams) :
    (pullRequestBody o p).dirAtExit = false ∨
    (pullRequestBody o p).assigned = true := by
  unfold pullRequestBody buildFailure
  cases o.buildExc with
  | some e => exact Or.inl rfl
  | none =>
    right
    dsimp only
    repeat' split
    all_goals rfl

/-- C6: after every pull or push call returns, whether it succeeded,
returned a failure dict, or raised (build error, sync-back error,
KeyError, exhausted push cascade), no staging directory created by the
call exists any more: the finally block removes it on every exit path,
and the builder removes it itself before re-raising a copy error. -/
theorem c6_theorem (o : Oracle) (cfg req : Option GitParams) :
    (git_push o cfg req).stagingDirExists = false ∧
    (git_pull o cfg req).stagingDirExists = false := by
  constructor
  · cases cfg with
    | some p => exact finalize_stagingDirExists _ _ (pushConfigBody_cleanup o p)
    | none =>
      cases req with
      | some p =>
        exact finalize_stagingDirExists _ _ (pushRequestBody_cleanup o p)
      | none => rfl
  · cases cfg with
    | some p => exact finalize_stagingDirExists _ _ (pullConfigBody_cleanup o p)
    | none =>
      cases req with
      | some p =>
        exact finalize_stagingDirExists _ _ (pullRequestBody_cleanup o p)
      | none => rfl

/-!
Evaluation lemmas for the push-command filter, and concrete oracles
shared by witnesses and counterexamples.
-/

@[simp] theorem isPushCmd_plain (b : String) :
    isPushCmd (pushPlainCmd b) = true := rfl

@[simp] theorem isPushCmd_upstream (b : String) :
    isPushCmd (pushUpstreamCmd b) = true := rfl

@[simp] theorem isPushCmd_force (b : String) :
    isPushCmd (pushForceCmd b) = true := rfl

@[simp] theorem isPushCmd_refspec (cur b : String) :
    isPushCmd (pushForceRefspecCmd cur b) = true := rfl

@[simp] theorem isPushCmd_showCurrent : isPushCmd showCurrentCmd = false := rfl

@[simp] theorem isPushCmd_commit : isPushCmd commitCmd = false := rfl

@[simp] theorem isPushCmd_add : isPushCmd ["git", "add", "."] = false := rfl

@[simp] theorem isPushCmd_fetchAll :
    isPushCmd ["git", "fetch", "origin"] = false := rfl

@[simp] theorem isPushCmd_fetchBranch (b : String) :
    isPushCmd ["git", "fetch", "origin", b] = false := rfl

@[simp] theorem isPushCmd_checkoutUpper (b : String) :
    isPushCmd ["git", "checkout", "-B", b] = false := rfl

@[simp] theorem isPushCmd_checkoutUpperFrom (b c : String) :
    isPushCmd ["git", "checkout", "-B", b, c] = false := rfl

@[simp] theorem isPushCmd_checkoutLower (b : String) :
    isPushCmd ["git", "checkout", "-b", b] = false := rfl

@[simp] theorem isPushCmd_checkoutLowerFrom (b c : String) :
    isPushCmd ["git", "checkout", "-b", b, c] = false := rfl

@[simp] theorem isPushCmd_pullBranch (b : String) :
    isPushCmd ["git", "pull", "origin", b] = false := rfl

@[simp] theorem isPushCmd_lsRemote (b : String) :
    isPushCmd (lsRemoteCmd b) = false := rfl

@[simp] theorem pushTrace_stagingCmds (p : GitParams) :
    pushTrace (stagingCmds p) = [] := rfl

@[simp] theorem stagingCmds_no_push (p : GitParams) :
    ∀ a ∈ stagingCmds p, isPushCmd a = false := by
  intro a ha
  simp only [stagingCmds, List.mem_cons, List.mem_singleton,
             List.not_mem_nil, or_false] at ha
  rcases ha with h | h | h | h <;> subst h <;> rfl

@[simp] theorem filter_isPushCmd_stagingCmds (p : GitParams) :
    List.filter isPushCmd (stagingCmds p) = [] := rfl

@[simp] theorem GitResult.success_ok (s : String) :
    (GitResult.ok s).success = true := rfl

@[simp] theorem GitResult.success_err (e : String) :
    (GitResult.err e).success = false := rfl

@[simp] theorem GitResult.getOutput_ok (s : String) :
    (GitResult.ok s).getOutput = s := rfl

@[simp] theorem GitResult.outputOrError_ok (s : String) :
    (GitResult.ok s).outputOrError = s := rfl

@[simp] theorem GitResult.outputOrError_err (e : String) :
    (GitResult.err e).outputOrError = e := rfl

@[simp] theorem pushTrace_nil : pushTrace [] = [] := rfl

/-- Concrete sync parameters used by witnesses and counterexamples. -/
def demoParams : GitParams where
  url := "https://github.com/acme/cfg.git"
  branch := "main"
  username := "alice"
  token := "tok123"

/-- A world where every push command is rejected and everything else
succeeds. -/
def failPushOracle : Oracle where
  git := fun c => if isPushCmd c then .err "remote rejected" else .ok ""
  buildExc := none
  syncBackExc := none
  copiedCount := 1

/-- A world where the plain push fails but the set-upstream push (and
everything else) succeeds. -/
def upstreamOkOracle : Oracle where
  git := fun c => if c = pushPlainCmd "main" then .err "no upstream branch"
                  else .ok ""
  buildExc := none
  syncBackExc := none
  copiedCount := 1

/-- A world whose remote branch main does not exist: the ls-remote probe
returns no head and checking out origin/main fails; everything else
succeeds. -/
def absentBranchOracle : Oracle where
  git := fun c =>
    if c = ["git", "checkout", "-B", "main", "origin/main"] then
      .err "fatal: origin/main not found"
    else .ok ""
  buildExc := none
  syncBackExc := none
  copiedCount := 1

/-- A world where the commit step fails (as a nothing-to-commit outcome
does: git commit exits 1 and its stderr, the only stream the failure
dict keeps, is empty) and everything else succeeds. -/
def commitFailOracle : Oracle where
  git := fun c => if c = commitCmd then .err "" else .ok ""
  buildExc := none
  syncBackExc := none
  copiedCount := 1

/-- C2 (amended): in the configuration-driven push path the four push
strategies run in the fixed order plain, set-upstream, force, forced
refspec, each attempted only after the previous one failed, the first
success ending the cascade; in the request-parameter fallback path only
the first three strategies exist (the forced-refspec strategy is never
attempted, even when the force push fails).  In both paths, when the
plain push fails and the set-upstream push succeeds, no force push is
executed. -/
theorem c2_theorem (o : Oracle) (p : GitParams) (hb : o.buildExc = none) :
    (((o.git (pushPlainCmd p.branch)).success = true →
        pushTrace (git_push o (some p) none).trace = [pushPlainCmd p.branch]) ∧
     ((o.git (pushPlainCmd p.branch)).success = false →
      (o.git (pushUpstreamCmd p.branch)).success = true →
        pushTrace (git_push o (some p) none).trace =
          [pushPlainCmd p.branch, pushUpstreamCmd p.branch]) ∧
     ((o.git (pushPlainCmd p.branch)).success = false →
      (o.git (pushUpstreamCmd p.branch)).success = false →
      (o.git (pushForceCmd p.branch)).success = true →
        pushTrace (git_push o (some p) none).trace =
          [pushPlainCmd p.branch, pushUpstreamCmd p.branch,
           pushForceCmd p.branch]) ∧
     (∀ out, (o.git (pushPlainCmd p.branch)).success = false →
      (o.git (pushUpstreamCmd p.branch)).success = false →
      (o.git (pushForceCmd p.branch)).success = false →
      o.git showCurrentCmd = .ok out →
        pushTrace (git_push o (some p) none).trace =
          [pushPlainCmd p.branch, pushUpstreamCmd p.branch,
           pushForceCmd p.branch,
           pushForceRefspecCmd (strTrim out) p.branch])) ∧
    ((o.git commitCmd).success = true →
     ((o.git (pushPlainCmd p.branch)).success = true →
        pushTrace (git_push o none (some p)).trace = [pushPlainCmd p.branch]) ∧
     ((o.git (pushPlainCmd p.branch)).success = false →
      (o.git (pushUpstreamCmd p.branch)).success = true →
        pushTrace (git_push o none (some p)).trace =
          [pushPlainCmd p.branch, pushUpstreamCmd p.branch]) ∧
     ((o.git (pushPlainCmd p.branch)).success = false →
      (o.git (pushUpstreamCmd p.branch)).success = false →
        pushTrace (git_push o none (some p)).trace =
          [pushPlainCmd p.branch, pushUpstreamCmd p.branch,
           pushForceCmd p.branch])) := by
  constructor
  · refine ⟨?_, ?_, ?_, ?_⟩
    · intro hA
      simp only [git_push, finalize_trace]
      unfold pushConfigBody
      rw [hb]
      cases hf : (o.git ["git", "fetch", "origin"]).success <;>
        simp [hf, hA, pushTrace]
    · intro hA hB
      simp only [git_push, finalize_trace]
      unfold pushConfigBody
      rw [hb]
      cases hf : (o.git ["git", "fetch", "origin"]).success <;>
        simp [hf, hA, hB, pushTrace]
    · intro hA hB hC
      simp only [git_push, finalize_trace]
      unfold pushConfigBody
      rw [hb]
      cases hf : (o.git ["git", "fetch", "origin"]).success <;>
        simp [hf, hA, hB, hC, pushTrace]
    · intro out hA hB hC hshow
      simp only [git_push, finalize_trace]
      unfold pushConfigBody
      rw [hb]
      cases hf : (o.git ["git", "fetch", "origin"]).success <;>
        cases hD : (o.git
          (pushForceRefspecCmd (strTrim out) p.branch)).success <;>
          simp [hf, hA, hB, hC, hshow, hD, pushTrace]
  · intro hcommit
    refine ⟨?_, ?_, ?_⟩
    · intro hA
      simp only [git_push, finalize_trace]
      unfold pushRequestBody
      rw [hb]
      cases hf : (o.git ["git", "fetch", "origin"]).success <;>
        simp [hf, hcommit, hA, pushTrace]
    · intro hA hB
      simp only [git_push, finalize_trace]
      unfold pushRequestBody
      rw [hb]
      cases hf : (o.git ["git", "fetch", "origin"]).success <;>
        simp [hf, hcommit, hA, hB, pushTrace]
    · intro hA hB
      simp only [git_push, finalize_trace]
      unfold pushRequestBody
      rw [hb]
      cases hf : (o.git ["git", "fetch", "origin"]).success <;>
        simp [hf, hcommit, hA, hB, pushTrace]

/-- Witness for C2: in a world where the plain push fails and the
set-upstream push succeeds, the configuration-driven push runs exactly
those two push commands and no force push. -/
theorem c2_witness :
    pushTrace (git_push upstreamOkOracle (some demoParams) none).trace =
      [pushPlainCmd "main", pushUpstreamCmd "main"] :=
  (c2_theorem upstreamOkOracle demoParams rfl).1.2.1 rfl rfl

/-- C2 counterexample: in a request-parameter push call whose three
attempted push strategies all fail, the fourth strategy of the claimed
cascade is never attempted (only three push commands appear in the
trace) and the call even returns success. -/
theorem c2_counterexample :
    (failPushOracle.git (pushForceCmd "main")).success = false ∧
    pushTrace (git_push failPushOracle none (some demoParams)).trace =
      [pushPlainCmd "main", pushUpstreamCmd "main", pushForceCmd "main"] ∧
    (git_push failPushOracle none (some demoParams)).response = .ok true
      "Successfully pushed 1 files to https://github.com/acme/cfg.git:main" :=
  ⟨rfl, rfl, rfl⟩

/-- C4 (amended): in the configuration-driven push path, when all four
cascade strategies fail the call surfaces an HTTPException 500 whose
detail carries the last underlying git error, with no strategy retried
(each push command appears exactly once); in the request-parameter
fallback path only three strategies are attempted and their failure is
swallowed: the call returns a success result even when every attempted
push fails. -/
theorem c4_theorem :
    (∀ (o : Oracle) (p : GitParams) (a b cErr dOut dErr : String),
      o.buildExc = none →
      o.git (pushPlainCmd p.branch) = .err a →
      o.git (pushUpstreamCmd p.branch) = .err b →
      o.git (pushForceCmd p.branch) = .err cErr →
      o.git showCurrentCmd = .ok dOut →
      o.git (pushForceRefspecCmd (strTrim dOut) p.branch) = .err dErr →
      (git_push o (some p) none).response = .httpError 500
        ("Git push error: All push attempts failed. Last error: " ++ dErr) ∧
      pushTrace (git_push o (some p) none).trace =
        [pushPlainCmd p.branch, pushUpstreamCmd p.branch,
         pushForceCmd p.branch, pushForceRefspecCmd (strTrim dOut) p.branch]) ∧
    (∀ (o : Oracle) (p : GitParams) (a b cErr : String),
      o.buildExc = none →
      (o.git commitCmd).success = true →
      o.git (pushPlainCmd p.branch) = .err a →
      o.git (pushUpstreamCmd p.branch) = .err b →
      o.git (pushForceCmd p.branch) = .err cErr →
      (git_push o none (some p)).response = .ok true
        ("Successfully pushed " ++ toString o.copiedCount ++ " files to " ++
         p.url ++ ":" ++ p.branch)) := by
  constructor
  · intro o p a b cErr dOut dErr hb hA hB hC hshow hD
    constructor
    · simp only [git_push]
      unfold pushConfigBody
      rw [hb]
      cases hf : (o.git ["git", "fetch", "origin"]).success <;>
        simp [hf, hA, hB, hC, hshow, hD, finalize] <;>
          rw [← String.append_assoc] <;> exact rfl
    · simp only [git_push, finalize_trace]
      unfold pushConfigBody
      rw [hb]
      cases hf : (o.git ["git", "fetch", "origin"]).success <;>
        simp [hf, hA, hB, hC, hshow, hD, pushTrace]
  · intro o p a b cErr hb hcommit hA hB hC
    simp only [git_push]
    unfold pushRequestBody
    rw [hb]
    cases hf : (o.git ["git", "fetch", "origin"]).success <;>
      simp [hf, hcommit, hA, hB, hC, finalize]

/-- Witness for C4: a concrete world where every push is rejected; the
configuration path surfaces the hard failure with the last error, the
request path still reports success. -/
theorem c4_witness :
    ((git_push failPushOracle (some demoParams) none).response =
      .httpError 500
        "Git push error: All push attempts failed. Last error: remote rejected" ∧
     pushTrace (git_push failPushOracle (some demoParams) none).trace =
      [pushPlainCmd "main", pushUpstreamCmd "main", pushForceCmd "main",
       pushForceRefspecCmd "" "main"]) ∧
    (git_push failPushOracle none (some demoParams)).response = .ok true
      "Successfully pushed 1 files to https://github.com/acme/cfg.git:main" :=
  ⟨c4_theorem.1 failPushOracle demoParams "remote rejected" "remote rejected"
     "remote rejected" "" "remote rejected" rfl rfl rfl rfl rfl rfl,
   c4_theorem.2 failPushOracle demoParams "remote rejected" "remote rejected"
     "remote rejected" rfl rfl rfl rfl rfl⟩

/-- C4 counterexample: a push call (request-parameter path) in which
every push strategy of the cascade fails, yet a success result is
returned instead of a hard failure. -/
theorem c4_counterexample :
    (failPushOracle.git (pushPlainCmd "main")).success = false ∧
    (failPushOracle.git (pushUpstreamCmd "main")).success = false ∧
    (failPushOracle.git (pushForceCmd "main")).success = false ∧
    (failPushOracle.git (pushForceRefspecCmd "main" "main")).success = false ∧
    (git_push failPushOracle none (some demoParams)).response = .ok true
      "Successfully pushed 1 files to https://github.com/acme/cfg.git:main" :=
  ⟨rfl, rfl, rfl, rfl, rfl⟩

/-- C5 (amended): the configuration-driven pull fails with the explicit
branch-does-not-exist error when the ls-remote probe returns no head,
running no push command (a pull cannot create a remote branch); the
request-parameter pull performs no probe: when checking out the remote
branch fails it creates a fresh local staging branch with git checkout
-b and reports success (still running no push command). -/
theorem c5_theorem :
    (∀ (o : Oracle) (p : GitParams) (out : String),
      o.buildExc = none →
      o.git (lsRemoteCmd p.branch) = .ok out → strTrim out = "" →
      (git_pull o (some p) none).response = .ok false
        ("Remote branch '" ++ p.branch ++
         "' does not exist. Use git push first to create it.") ∧
      pushTrace (git_pull o (some p) none).trace = []) ∧
    (∀ (o : Oracle) (p : GitParams) (e : String),
      o.buildExc = none → o.syncBackExc = none →
      o.git ["git", "checkout", "-B", p.branch, "origin/" ++ p.branch] =
        .err e →
      (git_pull o none (some p)).response = .ok true
        ("Successfully pulled " ++ toString o.copiedCount ++ " files from " ++
         p.url ++ ":" ++ p.branch) ∧
      ["git", "checkout", "-b", p.branch] ∈ (git_pull o none (some p)).trace ∧
      pushTrace (git_pull o none (some p)).trace = []) := by
  constructor
  · intro o p out hb hprobe htrim
    constructor
    · simp only [git_pull]
      unfold pullConfigBody
      rw [hb]
      simp [hprobe, htrim, finalize]
    · simp only [git_pull, finalize_trace]
      unfold pullConfigBody
      rw [hb]
      simp [hprobe, htrim, pushTrace]
  · intro o p e hb hsync hco
    refine ⟨?_, ?_, ?_⟩
    · simp only [git_pull]
      unfold pullRequestBody
      rw [hb]
      simp [hco, hsync, finalize]
    · simp only [git_pull, finalize_trace]
      unfold pullRequestBody
      rw [hb]
      simp [hco, hsync]
    · simp only [git_pull, finalize_trace]
      unfold pullRequestBody
      rw [hb]
      simp [hco, hsync, pushTrace]

/-- Witness for C5: a concrete world whose remote branch is absent; the
configuration pull fails with the explicit error, the request pull
creates a local branch and reports success. -/
theorem c5_witness :
    ((git_pull absentBranchOracle (some demoParams) none).response =
      .ok false
        "Remote branch 'main' does not exist. Use git push first to create it." ∧
     pushTrace (git_pull absentBranchOracle (some demoParams) none).trace =
       []) ∧
    ((git_pull absentBranchOracle none (some demoParams)).response = .ok true
      "Successfully pulled 1 files from https://github.com/acme/cfg.git:main" ∧
     ["git", "checkout", "-b", "main"] ∈
       (git_pull absentBranchOracle none (some demoParams)).trace ∧
     pushTrace (git_pull absentBranchOracle none (some demoParams)).trace =
       []) :=
  ⟨c5_theorem.1 absentBranchOracle demoParams "" rfl rfl rfl,
   c5_theorem.2 absentBranchOracle demoParams "fatal: origin/main not found"
     rfl rfl rfl⟩

/-- C5 counterexample: a pull call (request-parameter path) in a world
whose remote branch does not exist (the probe command returns no head);
instead of failing with the explicit error, the call creates a fresh
local branch and reports success. -/
theorem c5_counterexample :
    absentBranchOracle.git (lsRemoteCmd "main") = .ok "" ∧
    (absentBranchOracle.git
      ["git", "checkout", "-B", "main", "origin/main"]).success = false ∧
    (git_pull absentBranchOracle none (some demoParams)).response = .ok true
      "Successfully pulled 1 files from https://github.com/acme/cfg.git:main" ∧
    ["git", "checkout", "-b", "main"] ∈
      (git_pull absentBranchOracle none (some demoParams)).trace :=
  ⟨rfl, rfl, rfl, by decide⟩

/-- C8 (amended): in the configuration-driven push path a failed commit
(the shape a nothing-to-commit outcome takes: exit code 1 with empty
captured stderr) never blocks the call, the push cascade still runs and
the call succeeds when the plain push succeeds; but in the
request-parameter fallback path any failed commit raises a KeyError
(reading the missing "output" key of the failure dict) and the call
becomes an HTTPException 500 before any push command runs. -/
theorem c8_theorem :
    (∀ (o : Oracle) (p : GitParams) (e : String),
      o.buildExc = none →
      o.git commitCmd = .err e →
      (o.git (pushPlainCmd p.branch)).success = true →
      (git_push o (some p) none).response = .ok true
        ("Successfully pushed " ++ toString o.copiedCount ++ " files to " ++
         p.url ++ ":" ++ p.branch) ∧
      pushTrace (git_push o (some p) none).trace = [pushPlainCmd p.branch]) ∧
    (∀ (o : Oracle) (p : GitParams) (e : String),
      o.buildExc = none →
      o.git commitCmd = .err e →
      (git_push o none (some p)).response =
        .httpError 500 "Git push error: \x27output\x27" ∧
      pushTrace (git_push o none (some p)).trace = []) := by
  constructor
  · intro o p e hb hcommit hA
    constructor
    · simp only [git_push]
      unfold pushConfigBody
      rw [hb]
      cases hf : (o.git ["git", "fetch", "origin"]).success <;>
        simp [hf, hA, finalize]
    · simp only [git_push, finalize_trace]
      unfold pushConfigBody
      rw [hb]
      cases hf : (o.git ["git", "fetch", "origin"]).success <;>
        simp [hf, hA, pushTrace]
  · intro o p e hb hcommit
    constructor
    · simp only [git_push]
      unfold pushRequestBody
      rw [hb]
      simp [hcommit, finalize]
    · simp only [git_push, finalize_trace]
      unfold pushRequestBody
      rw [hb]
      simp [hcommit, pushTrace]

/-- Witness for C8: a concrete world where the commit step fails as a
nothing-to-commit outcome does; the configuration push still succeeds,
the request push turns into a KeyError-driven HTTP 500. -/
theorem c8_witness :
    ((git_push commitFailOracle (some demoParams) none).response = .ok true
      "Successfully pushed 1 files to https://github.com/acme/cfg.git:main" ∧
     pushTrace (git_push commitFailOracle (some demoParams) none).trace =
       [pushPlainCmd "main"]) ∧
    ((git_push commitFailOracle none (some demoParams)).response =
      .httpError 500 "Git push error: \x27output\x27" ∧
     pushTrace (git_push commitFailOracle none (some demoParams)).trace =
       []) :=
  ⟨c8_theorem.1 commitFailOracle demoParams "" rfl rfl rfl,
   c8_theorem.2 commitFailOracle demoParams "" rfl rfl⟩

/-- C8 counterexample: a push call (request-parameter path) whose commit
reports nothing to commit (a failure dict with empty stderr); instead of
being treated as success with the push proceeding, the call raises and
no push command ever runs. -/
theorem c8_counterexample :
    commitFailOracle.git commitCmd = .err "" ∧
    (git_push commitFailOracle none (some demoParams)).response =
      .httpError 500 "Git push error: \x27output\x27" ∧
    pushTrace (git_push commitFailOracle none (some demoParams)).trace = [] :=
  ⟨rfl, rfl, rfl⟩
